import Mathlib

/-!
# Verification of the touchpad-to-mouse driver event loop

Shallow embedding of `src/touchpad_driver.py` (the `main` event loop of the
Goodix touchpad driver).  The Python loop is a synchronous state machine:
each inbound evdev event mutates the driver state and may emit outbound
events through the virtual mouse.  We model the state as an explicit
structure, each inbound event as a record carrying the evdev type/code/value
and a timestamp (the value `time.time()` would return while the event is
processed; timestamps are modelled as exact rationals), and the processing
of one event as a pure function `step : DriverState → InEvent → DriverState × List OutEvent`.

Floating-point remarks. Python computes `dist = math.sqrt(...)` and compares
it with `TAP_MOVEMENT_LIMIT`; since `sqrt` is correctly rounded and monotone
and the limit is exactly representable, the comparison equals comparing the
squared integer distance with the squared limit, which is how we embed it.
The motion magnitude `int(dx * MOVE_SENSITIVITY * accel)` and the scroll
tick count `int(scroll_acc / SCROLL_DIVIDER)` are embedded with exact
rational arithmetic and truncation toward zero, `int()`'s rounding mode.
-/

namespace Touchpad

/-! ## evdev numeric constants (values of `evdev.ecodes`) -/

def EV_SYN : Nat := 0
def EV_KEY : Nat := 1
def EV_REL : Nat := 2
def EV_ABS : Nat := 3

def SYN_REPORT : Nat := 0

def ABS_MT_SLOT : Nat := 47
def ABS_MT_POSITION_X : Nat := 53
def ABS_MT_POSITION_Y : Nat := 54
def ABS_MT_TRACKING_ID : Nat := 57
def ABS_MT_PRESSURE : Nat := 58

def BTN_TOOL_FINGER : Nat := 325
def BTN_TOUCH : Nat := 330
def BTN_TOOL_DOUBLETAP : Nat := 333
def BTN_TOOL_TRIPLETAP : Nat := 334
def BTN_TOOL_QUADTAP : Nat := 335

def BTN_LEFT : Nat := 272
def BTN_RIGHT : Nat := 273
def BTN_MIDDLE : Nat := 274

def REL_X : Nat := 0
def REL_Y : Nat := 1
def REL_HWHEEL : Nat := 6
def REL_WHEEL : Nat := 8

def KEY_TAB : Nat := 15
def KEY_D : Nat := 32
def KEY_LEFTSHIFT : Nat := 42
def KEY_LEFTALT : Nat := 56
def KEY_LEFTMETA : Nat := 125

/-! ## Configuration constants (the CONFIGURATION block of the script) -/

def MOVE_SENSITIVITY : ℚ := 6/10
def ACCEL_FACTOR : ℚ := 3/2
def SCROLL_DIVIDER : Int := 40
def NATURAL_SCROLLING : Bool := true

def PALM_ZONE_TOP_Y : Int := 500
def PALM_PRESSURE_THRESHOLD : Int := 45

def MIN_MOVE_PRESSURE : Int := 2
def LOW_PRESSURE_THRESHOLD : Int := 15
def SMALL_MOVE_CUTOFF : Int := 2

def TAP_TIMEOUT : ℚ := 20/100
def TAP_MOVEMENT_LIMIT : Int := 40
def PRESS_THRESHOLD : Int := 140
def RELEASE_THRESHOLD : Int := 80
def COOLDOWN_AFTER_SCROLL : ℚ := 25/100

def GESTURE_DISTANCE_THRESHOLD : Int := 100

def RIGHT_CLICK_ZONE_X : Int := 3000
def BOTTOM_ZONE_Y : Int := 1800

/-! ## Data model -/

/-- One entry of the `slots` dict: `{'x': ..., 'y': ..., 'p': ...}`. -/
structure Slot where
  x : Int
  y : Int
  p : Int
deriving DecidableEq, Repr

/-- The `slots` / `prev_slots` dicts, keyed by slot index. Python dicts keep
insertion order; we model them as association lists without duplicate keys,
new keys appended at the end, exactly as dict assignment behaves. -/
abbrev SlotMap := List (Int × Slot)

/-- Dict lookup: `m[k]` when present. -/
def slotGet : SlotMap → Int → Option Slot
  | [], _ => none
  | (k, s) :: rest, k2 => if k = k2 then some s else slotGet rest k2

/-- Dict membership test: `k in m`. -/
def slotMem (m : SlotMap) (k : Int) : Bool := (slotGet m k).isSome

/-- Dict assignment `m[k] = s`: replaces in place, appends if absent. -/
def slotSet : SlotMap → Int → Slot → SlotMap
  | [], k, s => [(k, s)]
  | (k2, s2) :: rest, k, s =>
      if k2 = k then (k, s) :: rest else (k2, s2) :: slotSet rest k s

/-- Field update of an existing entry, `m[k]['x'] = v` style. -/
def slotModify (m : SlotMap) (k : Int) (f : Slot → Slot) : SlotMap :=
  m.map fun kv => if kv.1 = k then (kv.1, f kv.2) else kv

/-- Dict deletion `del m[k]` (no-op when the key is absent, matching the
`if active_slot in slots` guard around the `del`). -/
def slotDel (m : SlotMap) (k : Int) : SlotMap :=
  m.filter fun kv => !(kv.1 == k)

/-- One inbound evdev event, with the wall-clock time at which the loop
body processes it (what `time.time()` returns during that iteration). -/
structure InEvent where
  time : ℚ
  typ : Nat
  code : Nat
  value : Int
deriving DecidableEq, Repr

/-- One outbound write to the virtual mouse: `vmouse.write(EV_KEY, c, v)`,
`vmouse.write(EV_REL, c, v)` or `vmouse.syn()`. -/
inductive OutEvent where
  | key (code : Nat) (value : Int)
  | rel (code : Nat) (value : Int)
  | syn
deriving DecidableEq, Repr

/-- The mutable state of the `main` loop. -/
structure DriverState where
  slots : SlotMap
  prevSlots : SlotMap
  activeSlot : Int
  currentFingerCount : Nat
  maxFingers : Nat
  maxPressure : Int
  touchStartTime : ℚ
  touchStartCoords : Int × Int
  isPhysicallyClicked : Bool
  activePhysicalButton : Option Nat
  lastScrollTime : ℚ
  scrollAccY : Int
  scrollAccX : Int
  isScrolling : Bool
  isPalmRejected : Bool
  gestureAccX : Int
  gestureAccY : Int
  gestureTriggered : Bool
deriving DecidableEq, Repr

/-- The state right after the `with uinput.UInput(...)` block opens. -/
def initState : DriverState :=
  { slots := []
    prevSlots := []
    activeSlot := 0
    currentFingerCount := 0
    maxFingers := 0
    maxPressure := 0
    touchStartTime := 0
    touchStartCoords := (0, 0)
    isPhysicallyClicked := false
    activePhysicalButton := none
    lastScrollTime := 0
    scrollAccY := 0
    scrollAccX := 0
    isScrolling := false
    isPalmRejected := false
    gestureAccX := 0
    gestureAccY := 0
    gestureTriggered := false }

/-! ## Event processing -/

/-- The `EV_ABS` branch (lines 93–110): slot selection, unconditional
creation of the active slot's record, field updates, the running
session pressure maximum, and tracking-id invalidation. -/
def absStep (st : DriverState) (code : Nat) (value : Int) : DriverState :=
  let st := if code = ABS_MT_SLOT then { st with activeSlot := value } else st
  let st :=
    if slotMem st.slots st.activeSlot then st
    else { st with slots := slotSet st.slots st.activeSlot ⟨0, 0, 0⟩ }
  if code = ABS_MT_POSITION_X then
    { st with slots := slotModify st.slots st.activeSlot fun s => { s with x := value } }
  else if code = ABS_MT_POSITION_Y then
    { st with slots := slotModify st.slots st.activeSlot fun s => { s with y := value } }
  else if code = ABS_MT_PRESSURE then
    let st := { st with slots := slotModify st.slots st.activeSlot fun s => { s with p := value } }
    if value > st.maxPressure then { st with maxPressure := value } else st
  else if code = ABS_MT_TRACKING_ID then
    if value = -1 then { st with slots := slotDel st.slots st.activeSlot } else st
  else st

/-- Touch start (lines 123–143, `event.value == 1`): reset the session,
snapshot slot 0 and evaluate palm rejection when slot 0 exists, clear the
previous-generation slots. -/
def touchStart (st : DriverState) (now : ℚ) : DriverState :=
  let st :=
    { st with
      touchStartTime := now
      maxFingers := st.currentFingerCount
      maxPressure := 0
      isScrolling := false
      gestureTriggered := false
      gestureAccX := 0
      gestureAccY := 0 }
  let st :=
    match slotGet st.slots 0 with
    | some s0 =>
        { st with
          touchStartCoords := (s0.x, s0.y)
          isPalmRejected :=
            decide (s0.y < PALM_ZONE_TOP_Y ∧ s0.p > PALM_PRESSURE_THRESHOLD) }
    | none => st
  { st with prevSlots := [] }

/-- The down/syn/up/syn write sequence of a tap click (lines 172–176;
the 15 ms sleep between down and up is time, not an outbound event). -/
def tapClickSeq (btn : Nat) : List OutEvent :=
  [.key btn 1, .syn, .key btn 0, .syn]

/-- The last known slot-0 position used by the tap check (lines 156–158):
the previous-generation slot 0 when available, else the start coordinates. -/
def tapLastPos (st : DriverState) : Int × Int :=
  match slotGet st.prevSlots 0 with
  | some s0 => (s0.x, s0.y)
  | none => st.touchStartCoords

/-- Touch end (lines 145–176): the tap-click decision.  The comparison of
`math.sqrt` of the squared distance against `TAP_MOVEMENT_LIMIT` is embedded
as comparing the squared distance against the squared limit. -/
def touchEnd (st : DriverState) (now : ℚ) : DriverState × List OutEvent :=
  let duration := now - st.touchStartTime
  let timeSinceScroll := now - st.lastScrollTime
  let wasPhysicalClick := st.maxPressure > PRESS_THRESHOLD
  if st.isPalmRejected then (st, [])
  else if duration < TAP_TIMEOUT ∧ ¬wasPhysicalClick ∧
      timeSinceScroll > COOLDOWN_AFTER_SCROLL ∧ st.gestureTriggered = false then
    let last := tapLastPos st
    if (last.1 - st.touchStartCoords.1) ^ 2 + (last.2 - st.touchStartCoords.2) ^ 2
        < TAP_MOVEMENT_LIMIT ^ 2 then
      let clickBtn :=
        if st.maxFingers = 2 then BTN_RIGHT
        else if st.maxFingers = 3 then BTN_MIDDLE
        else if last.1 > RIGHT_CLICK_ZONE_X ∧ last.2 > BOTTOM_ZONE_Y then BTN_RIGHT
        else BTN_LEFT
      (st, tapClickSeq clickBtn)
    else (st, [])
  else (st, [])

/-- The finger-count classification and running max-finger update that the
`EV_KEY` branch performs on every key event (lines 113–119). -/
def fingerCountUpdate (st : DriverState) (code : Nat) (value : Int) : DriverState :=
  let cfc : Nat :=
    if code = BTN_TOOL_FINGER then (if value ≠ 0 then 1 else 0)
    else if code = BTN_TOOL_DOUBLETAP then (if value ≠ 0 then 2 else 0)
    else if code = BTN_TOOL_TRIPLETAP then (if value ≠ 0 then 3 else 0)
    else if code = BTN_TOOL_QUADTAP then (if value ≠ 0 then 4 else 0)
    else st.currentFingerCount
  let maxF := if cfc > st.maxFingers then cfc else st.maxFingers
  { st with currentFingerCount := cfc, maxFingers := maxF }

/-- The `EV_KEY` branch (lines 112–176): finger-count classification from
the tool codes, the running max-finger update (which runs on every key
event), and the `BTN_TOUCH` session start/end transitions. -/
def keyStep (st : DriverState) (now : ℚ) (code : Nat) (value : Int) :
    DriverState × List OutEvent :=
  let st := fingerCountUpdate st code value
  if code = BTN_TOUCH then
    if value = 1 then (touchStart st now, [])
    else touchEnd st now
  else (st, [])

/-- Slot 0's current pressure as the frame handler reads it (line 180):
`slots[0]['p'] if 0 in slots else 0`. -/
def slot0Pressure (st : DriverState) : Int :=
  match slotGet st.slots 0 with
  | some s0 => s0.p
  | none => 0

/-- The button the physical-click machine chooses at a press transition
(lines 189–190): right iff slot 0 currently lies in the bottom-right zone. -/
def physicalButtonChoice (st : DriverState) : Nat :=
  let isRight :=
    match slotGet st.slots 0 with
    | some s0 => decide (s0.x > RIGHT_CLICK_ZONE_X ∧ s0.y > BOTTOM_ZONE_Y)
    | none => false
  if isRight then BTN_RIGHT else BTN_LEFT

/-- The physical-click hysteresis machine (lines 186–197), run on each
completed frame with slot 0's current pressure (0 when slot 0 is absent). -/
def physClickStep (st : DriverState) (pressure : Int) : DriverState × List OutEvent :=
  if st.isPhysicallyClicked = false ∧ pressure > PRESS_THRESHOLD then
    let btn := physicalButtonChoice st
    ({ st with isPhysicallyClicked := true, activePhysicalButton := some btn },
     [.key btn 1])
  else if st.isPhysicallyClicked = true ∧ pressure < RELEASE_THRESHOLD then
    match st.activePhysicalButton with
    | some btn =>
        ({ st with
          isPhysicallyClicked := false
          activePhysicalButton := none },
         [.key btn 0])
    | none => ({ st with isPhysicallyClicked := false }, [])
  else (st, [])

/-- Swipe-right chord: Alt+Shift+Tab down, syn, then ups in reverse
(lines 210–219; the 50 ms sleep is time, not an outbound event). -/
def chordSwipeRight : List OutEvent :=
  [.key KEY_LEFTALT 1, .key KEY_LEFTSHIFT 1, .key KEY_TAB 1, .syn,
   .key KEY_TAB 0, .key KEY_LEFTSHIFT 0, .key KEY_LEFTALT 0]

/-- Swipe-left chord: Alt+Tab (lines 222–229). -/
def chordSwipeLeft : List OutEvent :=
  [.key KEY_LEFTALT 1, .key KEY_TAB 1, .syn, .key KEY_TAB 0, .key KEY_LEFTALT 0]

/-- Swipe-up chord: Super (lines 232–237). -/
def chordSwipeUp : List OutEvent :=
  [.key KEY_LEFTMETA 1, .syn, .key KEY_LEFTMETA 0]

/-- Swipe-down chord: Super+D (lines 240–247). -/
def chordSwipeDown : List OutEvent :=
  [.key KEY_LEFTMETA 1, .key KEY_D 1, .syn, .key KEY_D 0, .key KEY_LEFTMETA 0]

/-- The three-finger gesture branch (lines 204–247): accumulate the frame
delta, fire the first chord whose accumulator crosses the threshold. -/
def gestureStep (st : DriverState) (dx dy : Int) : DriverState × List OutEvent :=
  let gx := st.gestureAccX + dx
  let gy := st.gestureAccY + dy
  let st := { st with gestureAccX := gx, gestureAccY := gy }
  if gx > GESTURE_DISTANCE_THRESHOLD then
    ({ st with gestureTriggered := true }, chordSwipeRight)
  else if gx < -GESTURE_DISTANCE_THRESHOLD then
    ({ st with gestureTriggered := true }, chordSwipeLeft)
  else if gy < -GESTURE_DISTANCE_THRESHOLD then
    ({ st with gestureTriggered := true }, chordSwipeUp)
  else if gy > GESTURE_DISTANCE_THRESHOLD then
    ({ st with gestureTriggered := true }, chordSwipeDown)
  else (st, [])

/-- One axis of scroll accumulation (the shape shared by lines 257–261 and
267–273): add the frame delta, and when the magnitude exceeds the divisor
emit `int(acc / SCROLL_DIVIDER)` ticks (truncation toward zero) and keep
the remainder.  Returns (ticks emitted, new accumulator). -/
def scrollAxisStep (acc d : Int) : Int × Int :=
  let a := acc + d
  if |a| > SCROLL_DIVIDER then
    let ticks := Int.tdiv a SCROLL_DIVIDER
    (ticks, a - ticks * SCROLL_DIVIDER)
  else (0, a)

/-- The wheel polarity `direction = 1 if NATURAL_SCROLLING else -1`
(line 254). -/
def scrollDirection : Int := if NATURAL_SCROLLING then 1 else -1

/-- The two-finger scroll branch (lines 249–273): accumulate both axes,
then emit whole wheel ticks per axis when the accumulator magnitude exceeds
the divisor, keeping the remainder.  Vertical ticks are scaled by the
natural-scrolling direction, horizontal ticks by its negation. -/
def scrollStep (st : DriverState) (now : ℚ) (dx dy : Int) :
    DriverState × List OutEvent :=
  let st :=
    { st with
      isScrolling := true
      scrollAccY := st.scrollAccY + dy
      scrollAccX := st.scrollAccX + dx }
  let direction : Int := scrollDirection
  let pY : DriverState × List OutEvent :=
    if |st.scrollAccY| > SCROLL_DIVIDER then
      let ticks := Int.tdiv st.scrollAccY SCROLL_DIVIDER
      ({ st with
          scrollAccY := st.scrollAccY - ticks * SCROLL_DIVIDER
          lastScrollTime := now },
       [.rel REL_WHEEL (ticks * direction)])
    else (st, [])
  let st := pY.1
  let pX : DriverState × List OutEvent :=
    if |st.scrollAccX| > SCROLL_DIVIDER then
      let ticks := Int.tdiv st.scrollAccX SCROLL_DIVIDER
      let hDirection := -direction
      ({ st with
          scrollAccX := st.scrollAccX - ticks * SCROLL_DIVIDER
          lastScrollTime := now },
       [.rel REL_HWHEEL (ticks * hDirection)])
    else (st, [])
  (pX.1, pY.2 ++ pX.2)

/-- Truncation toward zero of an exact rational, Python's `int()` on the
(float) product. -/
def pyTrunc (q : ℚ) : Int := Int.tdiv q.num q.den

/-- `int(d * MOVE_SENSITIVITY * accel)` with exact rational arithmetic. -/
def moveVal (d : Int) (accel : ℚ) : Int :=
  pyTrunc ((d : ℚ) * MOVE_SENSITIVITY * accel)

/-- The single-finger movement branch (lines 275–287): noise gates, the
400-unit sanity bound, and accelerated relative motion.  `p` is slot 0's
current pressure.  No state is mutated by this branch. -/
def moveOut (p dx dy : Int) : List OutEvent :=
  let moveDist := |dx| + |dy|
  if p < MIN_MOVE_PRESSURE then []
  else if p < LOW_PRESSURE_THRESHOLD ∧ moveDist < SMALL_MOVE_CUTOFF then []
  else if |dx| < 400 ∧ |dy| < 400 then
    let speed := |dx| + |dy|
    let accel : ℚ := if speed > 15 then ACCEL_FACTOR else 1
    [.rel REL_X (moveVal dx accel), .rel REL_Y (moveVal dy accel)]
  else []

/-- The movement/scrolling/gesture dispatch of the frame handler
(lines 199–287): only when both generations hold a slot 0, and with the
finger-count branches mutually exclusive in source order. -/
def frameMotion (st : DriverState) (now : ℚ) : DriverState × List OutEvent :=
  match slotGet st.slots 0, slotGet st.prevSlots 0 with
  | some c, some pv =>
      let dx := c.x - pv.x
      let dy := c.y - pv.y
      if st.currentFingerCount = 3 ∧ st.gestureTriggered = false then
        gestureStep st dx dy
      else if st.currentFingerCount = 2 then
        scrollStep st now dx dy
      else if st.currentFingerCount = 1 ∧ st.isScrolling = false ∧
          st.gestureTriggered = false then
        (st, moveOut c.p dx dy)
      else (st, [])
  | _, _ => (st, [])

/-- The frame handler (lines 178–290), run at each `SYN_REPORT`: read slot
0's pressure, drop the whole frame when the session is palm-rejected
(Python's `continue`, which also skips the final syn and the
previous-generation commit), otherwise run the physical-click machine, one
of the mutually exclusive gesture/scroll/move branches, emit the closing
syn and commit the current slots as the previous generation. -/
def frameStep (st : DriverState) (now : ℚ) : DriverState × List OutEvent :=
  let pressure := slot0Pressure st
  if st.isPalmRejected then (st, [])
  else
    let pc := physClickStep st pressure
    let pm := frameMotion pc.1 now
    ({ pm.1 with prevSlots := pm.1.slots }, pc.2 ++ pm.2 ++ [.syn])

/-- Processing of one inbound event by the loop body (lines 92–290). -/
def step (st : DriverState) (ev : InEvent) : DriverState × List OutEvent :=
  if ev.typ = EV_ABS then (absStep st ev.code ev.value, [])
  else if ev.typ = EV_KEY then keyStep st ev.time ev.code ev.value
  else if ev.typ = EV_SYN ∧ ev.code = SYN_REPORT then frameStep st ev.time
  else (st, [])

/-- Processing of a list of inbound events, concatenating the outputs. -/
def run (st : DriverState) (evs : List InEvent) : DriverState × List OutEvent :=
  match evs with
  | [] => (st, [])
  | ev :: rest =>
      let p := step st ev
      let q := run p.1 rest
      (q.1, p.2 ++ q.2)

/-- The per-event output batches of a list of inbound events. -/
def runOuts (st : DriverState) (evs : List InEvent) : List (List OutEvent) :=
  match evs with
  | [] => []
  | ev :: rest => (step st ev).2 :: runOuts (step st ev).1 rest

/-! ## Output classification predicates -/

/-- A mouse-button write (left, right or middle). -/
def isButtonEvent : OutEvent → Bool
  | .key c _ => c == BTN_LEFT || c == BTN_RIGHT || c == BTN_MIDDLE
  | _ => false

/-- A keyboard-key write belonging to one of the gesture chords. -/
def isChordKey : OutEvent → Bool
  | .key c _ =>
      c == KEY_LEFTALT || c == KEY_LEFTSHIFT || c == KEY_TAB ||
      c == KEY_LEFTMETA || c == KEY_D
  | _ => false

/-- A relative pointer-motion write. -/
def isMotionEvent : OutEvent → Bool
  | .rel c _ => c == REL_X || c == REL_Y
  | _ => false

/-- A vertical-wheel write. -/
def isWheelY : OutEvent → Bool
  | .rel c _ => c == REL_WHEEL
  | _ => false

/-- A horizontal-wheel write. -/
def isWheelX : OutEvent → Bool
  | .rel c _ => c == REL_HWHEEL
  | _ => false

/-- The `BTN_TOUCH`-pressed event that opens a new contact session. -/
def isTouchStart (ev : InEvent) : Bool :=
  ev.typ == EV_KEY && ev.code == BTN_TOUCH && ev.value == 1

/-- A button-down write. -/
def isButtonDown (o : OutEvent) : Bool :=
  match o with
  | .key c 1 => c == BTN_LEFT || c == BTN_RIGHT || c == BTN_MIDDLE
  | _ => false

/-- A button-up write. -/
def isButtonUp (o : OutEvent) : Bool :=
  match o with
  | .key c 0 => c == BTN_LEFT || c == BTN_RIGHT || c == BTN_MIDDLE
  | _ => false

/-- In every reachable state the physical-click button is unset, left or
right: it is only ever assigned `BTN_RIGHT if is_right else BTN_LEFT`. -/
def buttonOK (st : DriverState) : Prop :=
  st.activePhysicalButton = none ∨ st.activePhysicalButton = some BTN_LEFT ∨
    st.activePhysicalButton = some BTN_RIGHT

/-! ## Aggregated scroll accounting -/

/-- Total ticks emitted and final accumulator after feeding a sequence of
per-frame deltas through one scroll axis. -/
def scrollFold (acc : Int) (ds : List Int) : Int × Int :=
  match ds with
  | [] => (0, acc)
  | d :: rest =>
      let p := scrollAxisStep acc d
      let q := scrollFold p.2 rest
      (p.1 + q.1, q.2)

/-! ## Supporting lemmas -/

lemma physicalButtonChoice_eq (st : DriverState) :
    physicalButtonChoice st = BTN_LEFT ∨ physicalButtonChoice st = BTN_RIGHT := by
  unfold physicalButtonChoice
  dsimp only []
  split_ifs <;> simp

lemma physClickStep_preserves (st : DriverState) (p : Int) :
    (physClickStep st p).1.slots = st.slots ∧
    (physClickStep st p).1.prevSlots = st.prevSlots ∧
    (physClickStep st p).1.currentFingerCount = st.currentFingerCount ∧
    (physClickStep st p).1.isScrolling = st.isScrolling ∧
    (physClickStep st p).1.gestureTriggered = st.gestureTriggered ∧
    (physClickStep st p).1.gestureAccX = st.gestureAccX ∧
    (physClickStep st p).1.gestureAccY = st.gestureAccY ∧
    (physClickStep st p).1.scrollAccX = st.scrollAccX ∧
    (physClickStep st p).1.scrollAccY = st.scrollAccY ∧
    (physClickStep st p).1.lastScrollTime = st.lastScrollTime ∧
    (physClickStep st p).1.isPalmRejected = st.isPalmRejected := by
  unfold physClickStep
  split_ifs <;> cases st.activePhysicalButton <;>
    exact ⟨rfl, rfl, rfl, rfl, rfl, rfl, rfl, rfl, rfl, rfl, rfl⟩

lemma physClickStep_filter_key_free (st : DriverState) (p : Int)
    (f : OutEvent → Bool) (hk : ∀ c v, f (.key c v) = false) :
    (physClickStep st p).2.filter f = [] := by
  unfold physClickStep
  split_ifs <;> cases st.activePhysicalButton <;> simp [hk]

lemma scrollAxisStep_law (acc d : Int) :
    SCROLL_DIVIDER * (scrollAxisStep acc d).1 + (scrollAxisStep acc d).2 = acc + d := by
  unfold scrollAxisStep
  dsimp only []
  split_ifs
  · ring
  · simp

lemma scrollFold_law (ds : List Int) (acc : Int) :
    SCROLL_DIVIDER * (scrollFold acc ds).1 + (scrollFold acc ds).2 = acc + ds.sum := by
  induction ds generalizing acc with
  | nil => simp [scrollFold]
  | cons d rest ih =>
      have h1 := scrollAxisStep_law acc d
      have h2 := ih (scrollAxisStep acc d).2
      simp only [scrollFold, List.sum_cons]
      ring_nf
      ring_nf at h1 h2
      linarith

/-- The scroll branch of the frame handler performs exactly the per-axis
accumulator update of scrollAxisStep on both axes. -/
lemma scrollStep_axis (st : DriverState) (now : ℚ) (dx dy : Int) :
    (scrollStep st now dx dy).1.scrollAccY = (scrollAxisStep st.scrollAccY dy).2 ∧
    (scrollStep st now dx dy).1.scrollAccX = (scrollAxisStep st.scrollAccX dx).2 := by
  unfold scrollStep scrollAxisStep
  dsimp only []
  split_ifs <;> exact ⟨rfl, rfl⟩

lemma step_abs_ev (st : DriverState) (ev : InEvent) (h : ev.typ = EV_ABS) :
    step st ev = (absStep st ev.code ev.value, []) := by
  unfold step
  rw [if_pos h]

lemma step_key_ev (st : DriverState) (ev : InEvent) (h : ev.typ = EV_KEY) :
    step st ev = keyStep st ev.time ev.code ev.value := by
  unfold step
  rw [if_neg (by rw [h]; decide), if_pos h]

lemma step_frame_ev (st : DriverState) (ev : InEvent) (h1 : ev.typ = EV_SYN)
    (h2 : ev.code = SYN_REPORT) :
    step st ev = frameStep st ev.time := by
  unfold step
  rw [if_neg (by rw [h1]; decide), if_neg (by rw [h1]; decide), if_pos ⟨h1, h2⟩]

lemma step_other (st : DriverState) (ev : InEvent) (h1 : ev.typ ≠ EV_ABS)
    (h2 : ev.typ ≠ EV_KEY) (h3 : ¬(ev.typ = EV_SYN ∧ ev.code = SYN_REPORT)) :
    step st ev = (st, []) := by
  unfold step
  rw [if_neg h1, if_neg h2, if_neg h3]

/-- Processing a touch event through the outer dispatch: the key branch
first applies the running max-finger update, then branches on start/end. -/
lemma step_touch (st : DriverState) (now : ℚ) (v : Int) :
    step st ⟨now, EV_KEY, BTN_TOUCH, v⟩ =
      (if v = 1 then
        (touchStart
          { st with
            maxFingers :=
              if st.currentFingerCount > st.maxFingers then st.currentFingerCount
              else st.maxFingers } now, [])
      else
        touchEnd
          { st with
            maxFingers :=
              if st.currentFingerCount > st.maxFingers then st.currentFingerCount
              else st.maxFingers } now) := by
  simp only [step, keyStep, fingerCountUpdate, EV_ABS, EV_KEY, EV_SYN, SYN_REPORT,
    BTN_TOUCH, BTN_TOOL_FINGER, BTN_TOOL_DOUBLETAP, BTN_TOOL_TRIPLETAP,
    BTN_TOOL_QUADTAP]
  norm_num

lemma frameStep_no_palm (st : DriverState) (now : ℚ) (h : st.isPalmRejected = false) :
    frameStep st now =
      ({ (frameMotion (physClickStep st (slot0Pressure st)).1 now).1 with
          prevSlots := (frameMotion (physClickStep st (slot0Pressure st)).1 now).1.slots },
       (physClickStep st (slot0Pressure st)).2 ++
         (frameMotion (physClickStep st (slot0Pressure st)).1 now).2 ++ [.syn]) := by
  unfold frameStep
  rw [if_neg (by simp [h])]

lemma frameMotion_scroll (st : DriverState) (now : ℚ) (c pv : Slot)
    (hc : slotGet st.slots 0 = some c) (hp : slotGet st.prevSlots 0 = some pv)
    (hf : st.currentFingerCount = 2) :
    frameMotion st now = scrollStep st now (c.x - pv.x) (c.y - pv.y) := by
  unfold frameMotion
  rw [hc, hp]
  simp [hf]

lemma frameMotion_gesture (st : DriverState) (now : ℚ) (c pv : Slot)
    (hc : slotGet st.slots 0 = some c) (hp : slotGet st.prevSlots 0 = some pv)
    (hf : st.currentFingerCount = 3) (hg : st.gestureTriggered = false) :
    frameMotion st now = gestureStep st (c.x - pv.x) (c.y - pv.y) := by
  unfold frameMotion
  rw [hc, hp]
  simp [hf, hg]

lemma frameMotion_move (st : DriverState) (now : ℚ) (c pv : Slot)
    (hc : slotGet st.slots 0 = some c) (hp : slotGet st.prevSlots 0 = some pv)
    (hf : st.currentFingerCount = 1) (hs : st.isScrolling = false)
    (hg : st.gestureTriggered = false) :
    frameMotion st now = (st, moveOut c.p (c.x - pv.x) (c.y - pv.y)) := by
  unfold frameMotion
  rw [hc, hp]
  simp [hf, hs, hg]

lemma scrollStep_spec (st : DriverState) (now : ℚ) (dx dy : Int) :
    (scrollStep st now dx dy).2.filter isWheelY =
      (if |st.scrollAccY + dy| > SCROLL_DIVIDER then
        [OutEvent.rel REL_WHEEL
          (Int.tdiv (st.scrollAccY + dy) SCROLL_DIVIDER * scrollDirection)]
      else []) ∧
    (scrollStep st now dx dy).1.scrollAccY =
      (if |st.scrollAccY + dy| > SCROLL_DIVIDER then
        st.scrollAccY + dy -
          Int.tdiv (st.scrollAccY + dy) SCROLL_DIVIDER * SCROLL_DIVIDER
      else st.scrollAccY + dy) ∧
    (scrollStep st now dx dy).2.filter isWheelX =
      (if |st.scrollAccX + dx| > SCROLL_DIVIDER then
        [OutEvent.rel REL_HWHEEL
          (Int.tdiv (st.scrollAccX + dx) SCROLL_DIVIDER * (-scrollDirection))]
      else []) ∧
    (scrollStep st now dx dy).1.scrollAccX =
      (if |st.scrollAccX + dx| > SCROLL_DIVIDER then
        st.scrollAccX + dx -
          Int.tdiv (st.scrollAccX + dx) SCROLL_DIVIDER * SCROLL_DIVIDER
      else st.scrollAccX + dx) ∧
    (scrollStep st now dx dy).1.isScrolling = true ∧
    ((|st.scrollAccY + dy| > SCROLL_DIVIDER ∨ |st.scrollAccX + dx| > SCROLL_DIVIDER) →
      (scrollStep st now dx dy).1.lastScrollTime = now) ∧
    (¬(|st.scrollAccY + dy| > SCROLL_DIVIDER) → ¬(|st.scrollAccX + dx| > SCROLL_DIVIDER) →
      (scrollStep st now dx dy).1.lastScrollTime = st.lastScrollTime) := by
  unfold scrollStep
  dsimp only []
  split_ifs with hY hX hX <;>
    simp_all [isWheelY, isWheelX, REL_WHEEL, REL_HWHEEL]

lemma gestureStep_click_fields (st : DriverState) (dx dy : Int) :
    (gestureStep st dx dy).1.isPhysicallyClicked = st.isPhysicallyClicked ∧
    (gestureStep st dx dy).1.activePhysicalButton = st.activePhysicalButton := by
  unfold gestureStep
  dsimp only []
  split_ifs <;> exact ⟨rfl, rfl⟩

lemma scrollStep_click_fields (st : DriverState) (now : ℚ) (dx dy : Int) :
    (scrollStep st now dx dy).1.isPhysicallyClicked = st.isPhysicallyClicked ∧
    (scrollStep st now dx dy).1.activePhysicalButton = st.activePhysicalButton := by
  unfold scrollStep
  dsimp only []
  split_ifs <;> exact ⟨rfl, rfl⟩

lemma frameMotion_click_fields (st : DriverState) (now : ℚ) :
    (frameMotion st now).1.isPhysicallyClicked = st.isPhysicallyClicked ∧
    (frameMotion st now).1.activePhysicalButton = st.activePhysicalButton := by
  unfold frameMotion
  split
  · dsimp only []
    split_ifs
    · exact gestureStep_click_fields _ _ _
    · exact scrollStep_click_fields _ _ _ _
    · exact ⟨rfl, rfl⟩
    · exact ⟨rfl, rfl⟩
  · exact ⟨rfl, rfl⟩

lemma gestureStep_filter_button (st : DriverState) (dx dy : Int) :
    (gestureStep st dx dy).2.filter isButtonEvent = [] := by
  unfold gestureStep
  dsimp only []
  split_ifs <;> rfl

lemma scrollStep_filter_button (st : DriverState) (now : ℚ) (dx dy : Int) :
    (scrollStep st now dx dy).2.filter isButtonEvent = [] := by
  unfold scrollStep
  dsimp only []
  split_ifs <;> rfl

lemma moveOut_filter_button (p dx dy : Int) :
    (moveOut p dx dy).filter isButtonEvent = [] := by
  unfold moveOut
  dsimp only []
  split_ifs <;> rfl

lemma frameMotion_filter_button (st : DriverState) (now : ℚ) :
    (frameMotion st now).2.filter isButtonEvent = [] := by
  unfold frameMotion
  split
  · dsimp only []
    split_ifs
    · exact gestureStep_filter_button _ _ _
    · exact scrollStep_filter_button _ _ _ _
    · exact moveOut_filter_button _ _ _
    · rfl
  · rfl

lemma isButtonEvent_choice (st : DriverState) (v : Int) :
    isButtonEvent (.key (physicalButtonChoice st) v) = true := by
  rcases physicalButtonChoice_eq st with h | h <;> rw [h] <;> rfl

lemma physClickStep_press (st : DriverState) (p : Int)
    (h1 : st.isPhysicallyClicked = false) (h2 : p > PRESS_THRESHOLD) :
    physClickStep st p =
      ({ st with
          isPhysicallyClicked := true
          activePhysicalButton := some (physicalButtonChoice st) },
       [.key (physicalButtonChoice st) 1]) := by
  unfold physClickStep
  rw [if_pos ⟨h1, h2⟩]

lemma physClickStep_release (st : DriverState) (p : Int) (b : Nat)
    (h1 : st.isPhysicallyClicked = true) (h2 : p < RELEASE_THRESHOLD)
    (hb : st.activePhysicalButton = some b) :
    physClickStep st p =
      ({ st with
          isPhysicallyClicked := false
          activePhysicalButton := none },
       [.key b 0]) := by
  unfold physClickStep
  rw [if_neg (by simp [h1]), if_pos ⟨h1, h2⟩, hb]

lemma physClickStep_none (st : DriverState) (p : Int)
    (h : (st.isPhysicallyClicked = false ∧ p ≤ PRESS_THRESHOLD) ∨
      (st.isPhysicallyClicked = true ∧ RELEASE_THRESHOLD ≤ p)) :
    physClickStep st p = (st, []) := by
  have hA : ¬(st.isPhysicallyClicked = false ∧ p > PRESS_THRESHOLD) := by
    rintro ⟨hc, hp⟩
    rcases h with ⟨h1, h2⟩ | ⟨h1, h2⟩
    · exact absurd hp (not_lt.mpr h2)
    · rw [h1] at hc
      cases hc
  have hB : ¬(st.isPhysicallyClicked = true ∧ p < RELEASE_THRESHOLD) := by
    rintro ⟨hc, hp⟩
    rcases h with ⟨h1, h2⟩ | ⟨h1, h2⟩
    · rw [h1] at hc
      cases hc
    · exact absurd hp (not_lt.mpr h2)
  unfold physClickStep
  rw [if_neg hA, if_neg hB]

/-- The inbound stream of the hysteresis test: one pressure update followed
by one frame boundary per sample. -/
def pressureFrames : List Int → List InEvent
  | [] => []
  | p :: rest =>
      ⟨0, EV_ABS, ABS_MT_PRESSURE, p⟩ :: ⟨0, EV_SYN, SYN_REPORT, 0⟩ ::
        pressureFrames rest

lemma absStep_session_fields (st : DriverState) (c : Nat) (v : Int) :
    (absStep st c v).isPalmRejected = st.isPalmRejected ∧
    (absStep st c v).gestureTriggered = st.gestureTriggered ∧
    (absStep st c v).activePhysicalButton = st.activePhysicalButton := by
  unfold absStep
  dsimp only []
  split_ifs <;> exact ⟨rfl, rfl, rfl⟩

lemma touchStart_button (st : DriverState) (now : ℚ) :
    (touchStart st now).activePhysicalButton = st.activePhysicalButton := by
  unfold touchStart
  dsimp only []
  split <;> rfl

lemma touchEnd_state (st : DriverState) (now : ℚ) : (touchEnd st now).1 = st := by
  unfold touchEnd
  dsimp only []
  split_ifs <;> rfl

lemma touchEnd_palm (st : DriverState) (now : ℚ) (h : st.isPalmRejected = true) :
    touchEnd st now = (st, []) := by
  unfold touchEnd
  rw [if_pos h]

lemma touchEnd_out_shape (st : DriverState) (now : ℚ) :
    (touchEnd st now).2 = [] ∨
    ∃ b, (b = BTN_LEFT ∨ b = BTN_RIGHT ∨ b = BTN_MIDDLE) ∧
      (touchEnd st now).2 = tapClickSeq b := by
  unfold touchEnd
  dsimp only []
  split_ifs
  all_goals first
    | exact Or.inl rfl
    | exact Or.inr ⟨BTN_LEFT, Or.inl rfl, rfl⟩
    | exact Or.inr ⟨BTN_RIGHT, Or.inr (Or.inl rfl), rfl⟩
    | exact Or.inr ⟨BTN_MIDDLE, Or.inr (Or.inr rfl), rfl⟩

lemma touchEnd_any_chord (st : DriverState) (now : ℚ) :
    (touchEnd st now).2.any isChordKey = false := by
  rcases touchEnd_out_shape st now with h | ⟨b, hbb, heq⟩
  · rw [h]; rfl
  · rw [heq]
    rcases hbb with h | h | h <;> rw [h] <;> rfl

lemma keyStep_any_chord (st : DriverState) (now : ℚ) (c : Nat) (v : Int) :
    (keyStep st now c v).2.any isChordKey = false := by
  unfold keyStep
  dsimp only []
  split_ifs
  · rfl
  · exact touchEnd_any_chord _ now
  · rfl

lemma keyStep_button (st : DriverState) (now : ℚ) (c : Nat) (v : Int) :
    (keyStep st now c v).1.activePhysicalButton = st.activePhysicalButton := by
  unfold keyStep
  dsimp only []
  split_ifs
  · exact touchStart_button _ now
  · rw [touchEnd_state]
    rfl
  · rfl

lemma keyStep_trig_not_start (st : DriverState) (now : ℚ) (c : Nat) (v : Int)
    (h : ¬(c = BTN_TOUCH ∧ v = 1)) :
    (keyStep st now c v).1.gestureTriggered = st.gestureTriggered := by
  unfold keyStep
  dsimp only []
  split_ifs with h1 h2
  · exact absurd ⟨h1, h2⟩ h
  · rw [touchEnd_state]
    rfl
  · rfl

lemma keyStep_palm_silent (st : DriverState) (now : ℚ) (c : Nat) (v : Int)
    (hpalm : st.isPalmRejected = true) (h : ¬(c = BTN_TOUCH ∧ v = 1)) :
    (keyStep st now c v).2 = [] ∧ (keyStep st now c v).1.isPalmRejected = true := by
  unfold keyStep
  dsimp only []
  split_ifs with h1 h2
  · exact absurd ⟨h1, h2⟩ h
  · rw [touchEnd_palm (fingerCountUpdate st c v) now hpalm]
    exact ⟨rfl, hpalm⟩
  · exact ⟨rfl, hpalm⟩

lemma frameStep_palm (st : DriverState) (now : ℚ) (h : st.isPalmRejected = true) :
    frameStep st now = (st, []) := by
  unfold frameStep
  rw [if_pos h]

lemma step_touch_start (st : DriverState) (now : ℚ) :
    step st ⟨now, EV_KEY, BTN_TOUCH, 1⟩ =
      (touchStart
        { st with
          maxFingers :=
            if st.currentFingerCount > st.maxFingers then st.currentFingerCount
            else st.maxFingers } now, []) := by
  rw [step_touch]
  simp

lemma physClickStep_buttonOK (st : DriverState) (p : Int) (hb : buttonOK st) :
    buttonOK (physClickStep st p).1 := by
  unfold buttonOK physClickStep
  split_ifs
  · rcases physicalButtonChoice_eq st with h | h <;> rw [h]
    · exact Or.inr (Or.inl rfl)
    · exact Or.inr (Or.inr rfl)
  · rcases hb with h | h | h <;> rw [h]
    · exact Or.inl rfl
    · exact Or.inl rfl
    · exact Or.inl rfl
  · exact hb

lemma physClickStep_any_chord (st : DriverState) (p : Int) (hb : buttonOK st) :
    (physClickStep st p).2.any isChordKey = false := by
  unfold physClickStep
  split_ifs
  · rcases physicalButtonChoice_eq st with h | h <;> rw [h] <;> rfl
  · rcases hb with h | h | h <;> rw [h] <;> rfl
  · rfl

lemma gestureStep_chord (st : DriverState) (dx dy : Int)
    (h : (gestureStep st dx dy).2.any isChordKey = true) :
    (gestureStep st dx dy).1.gestureTriggered = true := by
  unfold gestureStep at h ⊢
  dsimp only [] at h ⊢
  split_ifs at h ⊢ <;> first | rfl | simp at h

lemma scrollStep_any_chord (st : DriverState) (now : ℚ) (dx dy : Int) :
    (scrollStep st now dx dy).2.any isChordKey = false := by
  unfold scrollStep
  dsimp only []
  split_ifs <;> rfl

lemma moveOut_any_chord (p dx dy : Int) :
    (moveOut p dx dy).any isChordKey = false := by
  unfold moveOut
  dsimp only []
  split_ifs <;> rfl

lemma scrollStep_trig (st : DriverState) (now : ℚ) (dx dy : Int) :
    (scrollStep st now dx dy).1.gestureTriggered = st.gestureTriggered := by
  unfold scrollStep
  dsimp only []
  split_ifs <;> rfl

lemma frameMotion_chord (st : DriverState) (now : ℚ) :
    (frameMotion st now).2.any isChordKey = true →
    st.gestureTriggered = false ∧ (frameMotion st now).1.gestureTriggered = true := by
  unfold frameMotion
  split
  · dsimp only []
    split_ifs with h1 h2 h3 <;> intro h
    · exact ⟨h1.2, gestureStep_chord _ _ _ h⟩
    · rw [scrollStep_any_chord] at h
      simp at h
    · rw [moveOut_any_chord] at h
      simp at h
    · simp at h
  · intro h
    simp at h

lemma frameMotion_trig_true (st : DriverState) (now : ℚ)
    (h : st.gestureTriggered = true) :
    (frameMotion st now).1.gestureTriggered = true := by
  unfold frameMotion
  split
  · dsimp only []
    split_ifs with h1 h2 h3
    · rw [h] at h1
      exact absurd h1.2 (by decide)
    · rw [scrollStep_trig]
      exact h
    · exact h
    · exact h
  · exact h

lemma frameStep_chord (st : DriverState) (now : ℚ) (hb : buttonOK st)
    (h : (frameStep st now).2.any isChordKey = true) :
    st.gestureTriggered = false ∧ (frameStep st now).1.gestureTriggered = true := by
  rcases hst : st.isPalmRejected with _ | _
  · rw [frameStep_no_palm st now hst] at h ⊢
    dsimp only [] at h ⊢
    rw [List.any_append, List.any_append, physClickStep_any_chord st _ hb] at h
    have hsyn : ([OutEvent.syn] : List OutEvent).any isChordKey = false := rfl
    rw [hsyn] at h
    simp only [Bool.false_or, Bool.or_false] at h
    obtain ⟨ht, ht2⟩ := frameMotion_chord _ now h
    obtain ⟨-, -, -, -, hgt, -⟩ := physClickStep_preserves st (slot0Pressure st)
    exact ⟨by rw [← hgt]; exact ht, ht2⟩
  · rw [frameStep_palm st now hst] at h
    simp at h

lemma frameStep_trig_true (st : DriverState) (now : ℚ)
    (h : st.gestureTriggered = true) :
    (frameStep st now).1.gestureTriggered = true := by
  rcases hst : st.isPalmRejected with _ | _
  · rw [frameStep_no_palm st now hst]
    dsimp only []
    apply frameMotion_trig_true
    obtain ⟨-, -, -, -, hgt, -⟩ := physClickStep_preserves st (slot0Pressure st)
    rw [hgt]
    exact h
  · rw [frameStep_palm st now hst]
    exact h

lemma frameStep_buttonOK (st : DriverState) (now : ℚ) (hb : buttonOK st) :
    buttonOK (frameStep st now).1 := by
  rcases hst : st.isPalmRejected with _ | _
  · rw [frameStep_no_palm st now hst]
    unfold buttonOK
    dsimp only []
    obtain ⟨-, hab⟩ := frameMotion_click_fields (physClickStep st (slot0Pressure st)).1 now
    rw [hab]
    exact physClickStep_buttonOK st (slot0Pressure st) hb
  · rw [frameStep_palm st now hst]
    exact hb

lemma step_chord (st : DriverState) (ev : InEvent) (hb : buttonOK st)
    (h : (step st ev).2.any isChordKey = true) :
    st.gestureTriggered = false ∧ (step st ev).1.gestureTriggered = true := by
  by_cases habs : ev.typ = EV_ABS
  · rw [step_abs_ev st ev habs] at h
    simp at h
  by_cases hkey : ev.typ = EV_KEY
  · rw [step_key_ev st ev hkey] at h
    rw [keyStep_any_chord] at h
    simp at h
  by_cases hsyn : ev.typ = EV_SYN ∧ ev.code = SYN_REPORT
  · rw [step_frame_ev st ev hsyn.1 hsyn.2] at h ⊢
    exact frameStep_chord st ev.time hb h
  · rw [step_other st ev habs hkey hsyn] at h
    simp at h

lemma step_trig_true (st : DriverState) (ev : InEvent)
    (hns : isTouchStart ev = false) (h : st.gestureTriggered = true) :
    (step st ev).1.gestureTriggered = true := by
  by_cases habs : ev.typ = EV_ABS
  · rw [step_abs_ev st ev habs]
    rw [(absStep_session_fields st ev.code ev.value).2.1]
    exact h
  by_cases hkey : ev.typ = EV_KEY
  · rw [step_key_ev st ev hkey]
    rw [keyStep_trig_not_start]
    · exact h
    · rintro ⟨hc, hv⟩
      unfold isTouchStart at hns
      rw [hkey, hc, hv] at hns
      simp [EV_KEY, BTN_TOUCH] at hns
  by_cases hsyn : ev.typ = EV_SYN ∧ ev.code = SYN_REPORT
  · rw [step_frame_ev st ev hsyn.1 hsyn.2]
    exact frameStep_trig_true st ev.time h
  · rw [step_other st ev habs hkey hsyn]
    exact h

lemma step_buttonOK (st : DriverState) (ev : InEvent) (hb : buttonOK st) :
    buttonOK (step st ev).1 := by
  by_cases habs : ev.typ = EV_ABS
  · rw [step_abs_ev st ev habs]
    unfold buttonOK
    rw [(absStep_session_fields st ev.code ev.value).2.2]
    exact hb
  by_cases hkey : ev.typ = EV_KEY
  · rw [step_key_ev st ev hkey]
    unfold buttonOK
    rw [keyStep_button]
    exact hb
  by_cases hsyn : ev.typ = EV_SYN ∧ ev.code = SYN_REPORT
  · rw [step_frame_ev st ev hsyn.1 hsyn.2]
    exact frameStep_buttonOK st ev.time hb
  · rw [step_other st ev habs hkey hsyn]
    exact hb

lemma palm_step_silent (st : DriverState) (ev : InEvent)
    (hpalm : st.isPalmRejected = true) (hns : isTouchStart ev = false) :
    (step st ev).2 = [] ∧ (step st ev).1.isPalmRejected = true := by
  by_cases habs : ev.typ = EV_ABS
  · rw [step_abs_ev st ev habs]
    exact ⟨rfl, by
      rw [(absStep_session_fields st ev.code ev.value).1]
      exact hpalm⟩
  by_cases hkey : ev.typ = EV_KEY
  · rw [step_key_ev st ev hkey]
    apply keyStep_palm_silent st ev.time ev.code ev.value hpalm
    rintro ⟨hc, hv⟩
    unfold isTouchStart at hns
    rw [hkey, hc, hv] at hns
    simp [EV_KEY, BTN_TOUCH] at hns
  by_cases hsyn : ev.typ = EV_SYN ∧ ev.code = SYN_REPORT
  · rw [step_frame_ev st ev hsyn.1 hsyn.2, frameStep_palm st ev.time hpalm]
    exact ⟨rfl, hpalm⟩
  · rw [step_other st ev habs hkey hsyn]
    exact ⟨rfl, hpalm⟩

lemma palm_run_silent (evs : List InEvent) : ∀ st : DriverState,
    st.isPalmRejected = true → (∀ ev ∈ evs, isTouchStart ev = false) →
    (run st evs).2 = [] ∧ (run st evs).1.isPalmRejected = true := by
  induction evs with
  | nil => exact fun st h _ => ⟨rfl, h⟩
  | cons ev rest ih =>
      intro st hpalm hns
      obtain ⟨h1, h2⟩ := palm_step_silent st ev hpalm (hns ev (by simp))
      obtain ⟨h3, h4⟩ := ih (step st ev).1 h2 (fun e he => hns e (by simp [he]))
      unfold run
      dsimp only []
      rw [h1, h3]
      exact ⟨rfl, h4⟩

/-- The number of inbound events of a trace whose processing emits at
least one gesture-chord key. -/
def chordFrameCount (st : DriverState) (evs : List InEvent) : Nat :=
  ((runOuts st evs).filter fun out => out.any isChordKey).length

lemma chordFrameCount_triggered (evs : List InEvent) : ∀ st : DriverState,
    buttonOK st → st.gestureTriggered = true →
    (∀ ev ∈ evs, isTouchStart ev = false) → chordFrameCount st evs = 0 := by
  induction evs with
  | nil => exact fun st _ _ _ => rfl
  | cons ev rest ih =>
      intro st hb ht hns
      have hnc : (step st ev).2.any isChordKey = false := by
        cases hc : (step st ev).2.any isChordKey
        · rfl
        · obtain ⟨h1, -⟩ := step_chord st ev hb hc
          rw [ht] at h1
          exact absurd h1 (by decide)
      unfold chordFrameCount runOuts
      simp only [List.filter_cons, hnc, Bool.false_eq_true, if_false]
      exact ih (step st ev).1 (step_buttonOK st ev hb)
        (step_trig_true st ev (hns ev (by simp)) ht)
        (fun e he => hns e (by simp [he]))

/-! ## Claim theorems -/

/-- C2: for every sequence of per-frame deltas on a scroll axis summing to
S, the total number of emitted wheel ticks times the scroll divisor plus
the final accumulator value equals S exactly: the accumulator only ever
retains the remainder after emitting whole ticks, and no delta is dropped.
Both axes run the identical per-frame update (scrollStep_axis), so the law
covers the horizontal axis as well. -/
theorem scroll_accounting_law (ds : List Int) :
    SCROLL_DIVIDER * (scrollFold 0 ds).1 + (scrollFold 0 ds).2 = ds.sum := by
  simpa using scrollFold_law ds 0

theorem scroll_accounting_law_witness :
    SCROLL_DIVIDER * (scrollFold 0 [30, 30, -50]).1 + (scrollFold 0 [30, 30, -50]).2 = 10 := by
  have h := scroll_accounting_law [30, 30, -50]
  simpa using h

/-- C4 counterexample: a touch-down processed while the vertical scroll
accumulator holds 7 leaves it at 7; the claim says scroll_y becomes 0 at
every touch-down. -/
theorem touch_down_scroll_acc_cex :
    (step { initState with scrollAccY := 7 } ⟨0, EV_KEY, BTN_TOUCH, 1⟩).1.scrollAccY = 7 ∧
    (7 : Int) ≠ 0 := by
  exact ⟨rfl, by decide⟩

/-- C4 (amended): at every touch-down transition the gesture accumulators
and flags are reset (gesture_x = gesture_y = 0, gesture_fired = scrolling =
false), the session maxima restart (max_pressure = 0, max_finger_count
snapshots the current finger count), the previous-generation slots are
cleared, the start time is recorded and nothing is emitted; the scroll
accumulators scroll_x and scroll_y are NOT reset; start_coords and
palm_rejected are re-evaluated only when slot 0 is present in the slot map,
otherwise both retain the values left by the previous session. -/
theorem touch_down_reset (st : DriverState) (now : ℚ) :
    (step st ⟨now, EV_KEY, BTN_TOUCH, 1⟩).2 = [] ∧
    (step st ⟨now, EV_KEY, BTN_TOUCH, 1⟩).1.gestureAccX = 0 ∧
    (step st ⟨now, EV_KEY, BTN_TOUCH, 1⟩).1.gestureAccY = 0 ∧
    (step st ⟨now, EV_KEY, BTN_TOUCH, 1⟩).1.gestureTriggered = false ∧
    (step st ⟨now, EV_KEY, BTN_TOUCH, 1⟩).1.isScrolling = false ∧
    (step st ⟨now, EV_KEY, BTN_TOUCH, 1⟩).1.maxPressure = 0 ∧
    (step st ⟨now, EV_KEY, BTN_TOUCH, 1⟩).1.maxFingers = st.currentFingerCount ∧
    (step st ⟨now, EV_KEY, BTN_TOUCH, 1⟩).1.touchStartTime = now ∧
    (step st ⟨now, EV_KEY, BTN_TOUCH, 1⟩).1.prevSlots = [] ∧
    (step st ⟨now, EV_KEY, BTN_TOUCH, 1⟩).1.scrollAccX = st.scrollAccX ∧
    (step st ⟨now, EV_KEY, BTN_TOUCH, 1⟩).1.scrollAccY = st.scrollAccY ∧
    (∀ s0 : Slot, slotGet st.slots 0 = some s0 →
      (step st ⟨now, EV_KEY, BTN_TOUCH, 1⟩).1.touchStartCoords = (s0.x, s0.y) ∧
      ((step st ⟨now, EV_KEY, BTN_TOUCH, 1⟩).1.isPalmRejected = true ↔
        s0.y < PALM_ZONE_TOP_Y ∧ s0.p > PALM_PRESSURE_THRESHOLD)) ∧
    (slotGet st.slots 0 = none →
      (step st ⟨now, EV_KEY, BTN_TOUCH, 1⟩).1.touchStartCoords = st.touchStartCoords ∧
      (step st ⟨now, EV_KEY, BTN_TOUCH, 1⟩).1.isPalmRejected = st.isPalmRejected) := by
  rw [step_touch]
  norm_num only
  rcases h : slotGet st.slots 0 with _ | s0 <;>
    simp [touchStart, h]

/-- Concrete instantiation of touch_down_reset: slot 0 present at
(10, 200) with pressure 50, leftover scroll accumulator 7, one finger. -/
def c4WitnessState : DriverState :=
  { initState with
    slots := [(0, ⟨10, 200, 50⟩)]
    scrollAccY := 7
    currentFingerCount := 1 }

theorem touch_down_reset_witness :
    (step c4WitnessState ⟨2, EV_KEY, BTN_TOUCH, 1⟩).1.scrollAccY = 7 ∧
    (step c4WitnessState ⟨2, EV_KEY, BTN_TOUCH, 1⟩).1.maxFingers = 1 ∧
    (step c4WitnessState ⟨2, EV_KEY, BTN_TOUCH, 1⟩).1.touchStartCoords = (10, 200) ∧
    (step c4WitnessState ⟨2, EV_KEY, BTN_TOUCH, 1⟩).1.isPalmRejected = true := by
  obtain ⟨-, -, -, -, -, -, h7, -, -, -, h11, h12, -⟩ :=
    touch_down_reset c4WitnessState 2
  obtain ⟨hc, hp⟩ := h12 ⟨10, 200, 50⟩ rfl
  exact ⟨h11, h7, hc, hp.mpr (by decide)⟩

/-- C9 counterexample: at a touch-down with slot 0 absent, start_coords
stays (7, 8) (the claim says it becomes (0, 0)) and the palm flag stays
true rather than being re-evaluated. -/
theorem touch_down_absent_slot_cex :
    (step { initState with touchStartCoords := (7, 8), isPalmRejected := true }
        ⟨0, EV_KEY, BTN_TOUCH, 1⟩).1.touchStartCoords = (7, 8) ∧
    ((7, 8) : Int × Int) ≠ (0, 0) ∧
    (step { initState with touchStartCoords := (7, 8), isPalmRejected := true }
        ⟨0, EV_KEY, BTN_TOUCH, 1⟩).1.isPalmRejected = true := by
  exact ⟨rfl, by decide, rfl⟩

/-- C9 (amended): on a touch-down transition at which slot 0 is absent
from the current slot map, start_coords and the palm-rejection flag retain
the values they had before the transition (they are only snapshotted and
re-evaluated when slot 0 is present). -/
theorem touch_down_absent_slot_retains (st : DriverState) (now : ℚ)
    (h : slotGet st.slots 0 = none) :
    (step st ⟨now, EV_KEY, BTN_TOUCH, 1⟩).1.touchStartCoords = st.touchStartCoords ∧
    (step st ⟨now, EV_KEY, BTN_TOUCH, 1⟩).1.isPalmRejected = st.isPalmRejected := by
  rw [step_touch]
  norm_num only
  simp [touchStart, h]

theorem touch_down_absent_slot_retains_witness :
    (step { initState with touchStartCoords := (3, 4), isPalmRejected := true }
        ⟨0, EV_KEY, BTN_TOUCH, 1⟩).1.touchStartCoords = (3, 4) ∧
    (step { initState with touchStartCoords := (3, 4), isPalmRejected := true }
        ⟨0, EV_KEY, BTN_TOUCH, 1⟩).1.isPalmRejected = true :=
  touch_down_absent_slot_retains
    { initState with touchStartCoords := (3, 4), isPalmRejected := true } 0 rfl

/-- C10 counterexample: an absolute-axis event with the unlisted code 0
(ABS_X) processed on the empty slot map creates a zero-valued record for
the active slot, so the driver state does not stay unchanged. -/
theorem unknown_code_cex :
    (step initState ⟨0, EV_ABS, 0, 5⟩).1.slots = [(0, (⟨0, 0, 0⟩ : Slot))] ∧
    ([((0 : Int), (⟨0, 0, 0⟩ : Slot))] : SlotMap) ≠ ([] : SlotMap) ∧
    (step initState ⟨0, EV_ABS, 0, 5⟩).2 = [] := by
  exact ⟨rfl, by decide, rfl⟩

/-- C10 (amended): an inbound event with an unrecognized code emits
nothing, and: events of unhandled types (and EV_SYN events other than
SYN_REPORT) leave the state fully unchanged; an EV_KEY event with an
unrecognized code leaves the state unchanged except for raising
max_finger_count to the current finger count, a no-op whenever the maximum
already dominates; an EV_ABS event with an unrecognized code leaves every
slot field unchanged but ensures a record exists for the active slot,
creating a zero-valued one when absent (so it does not leave the slot map
unchanged in that case). -/
theorem unknown_code_effects (st : DriverState) (ev : InEvent) :
    (ev.typ = EV_ABS →
      ev.code ≠ ABS_MT_SLOT → ev.code ≠ ABS_MT_POSITION_X →
      ev.code ≠ ABS_MT_POSITION_Y → ev.code ≠ ABS_MT_PRESSURE →
      ev.code ≠ ABS_MT_TRACKING_ID →
      (step st ev).2 = [] ∧
      (step st ev).1 =
        { st with
          slots :=
            if slotMem st.slots st.activeSlot then st.slots
            else slotSet st.slots st.activeSlot ⟨0, 0, 0⟩ } ∧
      (slotMem st.slots st.activeSlot = true → (step st ev).1 = st)) ∧
    (ev.typ = EV_KEY →
      ev.code ≠ BTN_TOOL_FINGER → ev.code ≠ BTN_TOOL_DOUBLETAP →
      ev.code ≠ BTN_TOOL_TRIPLETAP → ev.code ≠ BTN_TOOL_QUADTAP →
      ev.code ≠ BTN_TOUCH →
      (step st ev).2 = [] ∧
      (step st ev).1 =
        { st with
          maxFingers :=
            if st.currentFingerCount > st.maxFingers then st.currentFingerCount
            else st.maxFingers } ∧
      (st.currentFingerCount ≤ st.maxFingers → (step st ev).1 = st)) ∧
    (ev.typ ≠ EV_ABS → ev.typ ≠ EV_KEY →
      ¬(ev.typ = EV_SYN ∧ ev.code = SYN_REPORT) →
      step st ev = (st, [])) := by
  refine ⟨?_, ?_, ?_⟩
  · intro ht h1 h2 h3 h4 h5
    have hstep : (step st ev).1 =
        { st with
          slots :=
            if slotMem st.slots st.activeSlot then st.slots
            else slotSet st.slots st.activeSlot ⟨0, 0, 0⟩ } := by
      rw [step_abs_ev st ev ht]
      simp only [absStep, if_neg h1, if_neg h2, if_neg h3, if_neg h4, if_neg h5]
      split_ifs <;> rfl
    refine ⟨by rw [step_abs_ev st ev ht], hstep, ?_⟩
    intro hmem
    rw [hstep, if_pos hmem]
  · intro ht h1 h2 h3 h4 h5
    have hk : step st ev =
        ({ st with
            maxFingers :=
              if st.currentFingerCount > st.maxFingers then st.currentFingerCount
              else st.maxFingers }, []) := by
      rw [step_key_ev st ev ht]
      simp only [keyStep, fingerCountUpdate, if_neg h1, if_neg h2, if_neg h3,
        if_neg h4, if_neg h5]
    refine ⟨by rw [hk], by rw [hk], ?_⟩
    intro hle
    rw [hk]
    have h6 : ¬ st.currentFingerCount > st.maxFingers := by omega
    rw [if_neg h6]
  · intro h1 h2 h3
    exact step_other st ev h1 h2 h3

theorem unknown_code_effects_witness :
    (step initState ⟨0, EV_KEY, 999, 1⟩).1 = initState ∧
    (step initState ⟨0, EV_KEY, 999, 1⟩).2 = [] := by
  obtain ⟨-, hkey, -⟩ := unknown_code_effects initState ⟨0, EV_KEY, 999, 1⟩
  obtain ⟨ho, -, hid⟩ :=
    hkey rfl (by decide) (by decide) (by decide) (by decide) (by decide)
  exact ⟨hid (by decide), ho⟩

/-- Concrete two-finger frame whose vertical and horizontal deltas are
both −50 while both accumulators are 0. -/
def scrollCexState : DriverState :=
  { initState with
    currentFingerCount := 2
    slots := [(0, ⟨10, 10, 50⟩)]
    prevSlots := [(0, ⟨60, 60, 50⟩)] }

/-- C5 counterexample: with the vertical accumulator at −50 (magnitude
above the divisor 40), the code emits int(−50/40) = −1 tick — truncation
toward zero — and keeps remainder −10, whereas the claim's
floor(−50/40) = −2 would emit two downward ticks (and leave remainder 30). -/
theorem scroll_tick_floor_cex :
    (frameStep scrollCexState 0).2.filter isWheelY = [.rel REL_WHEEL (-1)] ∧
    (frameStep scrollCexState 0).1.scrollAccY = -10 ∧
    Int.fdiv (-50) 40 = -2 ∧ ((-1 : Int) ≠ (-2 : Int)) := by
  exact ⟨by decide, by decide, by decide, by decide⟩

/-- C5 (amended): on every two-finger frame in which the updated vertical
accumulator satisfies `|scroll_y| > SCROLL_DIVIDER`, exactly
`int(scroll_y / SCROLL_DIVIDER)` — truncation toward zero, not floor —
vertical wheel ticks are emitted scaled by the natural-scroll polarity
sign, the consumed whole amount is subtracted from the accumulator, and the
scroll time is recorded; the horizontal axis behaves identically except its
ticks are scaled by the negation of the vertical polarity sign. -/
theorem two_finger_scroll_frame (st : DriverState) (now : ℚ) (c pv : Slot)
    (hc : slotGet st.slots 0 = some c) (hp : slotGet st.prevSlots 0 = some pv)
    (hf : st.currentFingerCount = 2) (hpalm : st.isPalmRejected = false) :
    (frameStep st now).2.filter isWheelY =
      (if |st.scrollAccY + (c.y - pv.y)| > SCROLL_DIVIDER then
        [OutEvent.rel REL_WHEEL
          (Int.tdiv (st.scrollAccY + (c.y - pv.y)) SCROLL_DIVIDER * scrollDirection)]
      else []) ∧
    (frameStep st now).1.scrollAccY =
      (if |st.scrollAccY + (c.y - pv.y)| > SCROLL_DIVIDER then
        st.scrollAccY + (c.y - pv.y) -
          Int.tdiv (st.scrollAccY + (c.y - pv.y)) SCROLL_DIVIDER * SCROLL_DIVIDER
      else st.scrollAccY + (c.y - pv.y)) ∧
    (frameStep st now).2.filter isWheelX =
      (if |st.scrollAccX + (c.x - pv.x)| > SCROLL_DIVIDER then
        [OutEvent.rel REL_HWHEEL
          (Int.tdiv (st.scrollAccX + (c.x - pv.x)) SCROLL_DIVIDER * (-scrollDirection))]
      else []) ∧
    (frameStep st now).1.scrollAccX =
      (if |st.scrollAccX + (c.x - pv.x)| > SCROLL_DIVIDER then
        st.scrollAccX + (c.x - pv.x) -
          Int.tdiv (st.scrollAccX + (c.x - pv.x)) SCROLL_DIVIDER * SCROLL_DIVIDER
      else st.scrollAccX + (c.x - pv.x)) ∧
    (frameStep st now).1.isScrolling = true ∧
    ((|st.scrollAccY + (c.y - pv.y)| > SCROLL_DIVIDER ∨
        |st.scrollAccX + (c.x - pv.x)| > SCROLL_DIVIDER) →
      (frameStep st now).1.lastScrollTime = now) ∧
    (¬(|st.scrollAccY + (c.y - pv.y)| > SCROLL_DIVIDER) →
      ¬(|st.scrollAccX + (c.x - pv.x)| > SCROLL_DIVIDER) →
      (frameStep st now).1.lastScrollTime = st.lastScrollTime) := by
  obtain ⟨hs, hps, hcf, hsc, hgt, hgx, hgy, hsx, hsy, hlt, hpr⟩ :=
    physClickStep_preserves st (slot0Pressure st)
  have hc2 : slotGet (physClickStep st (slot0Pressure st)).1.slots 0 = some c := by
    rw [hs, hc]
  have hp2 : slotGet (physClickStep st (slot0Pressure st)).1.prevSlots 0 = some pv := by
    rw [hps, hp]
  have hf2 : (physClickStep st (slot0Pressure st)).1.currentFingerCount = 2 := by
    rw [hcf, hf]
  have hm := frameMotion_scroll (physClickStep st (slot0Pressure st)).1 now c pv hc2 hp2 hf2
  have hframe := frameStep_no_palm st now hpalm
  obtain ⟨s1, s2, s3, s4, s5, s6, s7⟩ :=
    scrollStep_spec (physClickStep st (slot0Pressure st)).1 now (c.x - pv.x) (c.y - pv.y)
  rw [hsy] at s1 s2 s6 s7
  rw [hsx] at s3 s4 s6 s7
  rw [hlt] at s7
  have hpcY : (physClickStep st (slot0Pressure st)).2.filter isWheelY = [] :=
    physClickStep_filter_key_free st (slot0Pressure st) isWheelY (fun _ _ => rfl)
  have hpcX : (physClickStep st (slot0Pressure st)).2.filter isWheelX = [] :=
    physClickStep_filter_key_free st (slot0Pressure st) isWheelX (fun _ _ => rfl)
  rw [hframe, hm]
  dsimp only []
  simp only [List.filter_append, hpcY, hpcX, List.nil_append]
  have hsynY : List.filter isWheelY [OutEvent.syn] = [] := rfl
  have hsynX : List.filter isWheelX [OutEvent.syn] = [] := rfl
  rw [hsynY, hsynX, List.append_nil, List.append_nil]
  exact ⟨s1, s2, s3, s4, s5, s6, s7⟩

/-- Concrete two-finger frame for the amended scroll behaviour: both
deltas are 90, so both axes emit two ticks and keep remainder 10. -/
def scrollWitnessState : DriverState :=
  { initState with
    currentFingerCount := 2
    slots := [(0, ⟨100, 150, 30⟩)]
    prevSlots := [(0, ⟨10, 60, 30⟩)] }

theorem two_finger_scroll_frame_witness :
    (frameStep scrollWitnessState 1).2.filter isWheelY = [OutEvent.rel REL_WHEEL 2] ∧
    (frameStep scrollWitnessState 1).1.scrollAccY = 10 ∧
    (frameStep scrollWitnessState 1).2.filter isWheelX = [OutEvent.rel REL_HWHEEL (-2)] ∧
    (frameStep scrollWitnessState 1).1.lastScrollTime = 1 := by
  obtain ⟨s1, s2, s3, s4, s5, s6, s7⟩ :=
    two_finger_scroll_frame scrollWitnessState 1 ⟨100, 150, 30⟩ ⟨10, 60, 30⟩ rfl rfl rfl rfl
  refine ⟨?_, ?_, ?_, s6 (by decide)⟩
  · rw [s1]; decide
  · rw [s2]; decide
  · rw [s3]; decide

/-- C8: on every single-finger frame (finger count 1, session not
scrolling, no gesture fired, previous-generation slot 0 present, session
not palm-rejected): no motion is emitted when the current pressure is below
MIN_MOVE_PRESSURE; none when the pressure is below LOW_PRESSURE_THRESHOLD
and |dx|+|dy| < SMALL_MOVE_CUTOFF; none when |dx| ≥ 400 or |dy| ≥ 400 (the
delta is dropped, not clamped or scaled); otherwise relative motion
dx·MOVE_SENSITIVITY·accel, dy·MOVE_SENSITIVITY·accel is emitted with
accel = ACCEL_FACTOR when |dx|+|dy| > 15 and 1 otherwise. -/
theorem single_finger_motion_gates (st : DriverState) (now : ℚ) (c pv : Slot)
    (hc : slotGet st.slots 0 = some c) (hp : slotGet st.prevSlots 0 = some pv)
    (hf : st.currentFingerCount = 1) (hs : st.isScrolling = false)
    (hg : st.gestureTriggered = false) (hpalm : st.isPalmRejected = false) :
    (frameStep st now).2.filter isMotionEvent =
      (if c.p < MIN_MOVE_PRESSURE then []
      else if c.p < LOW_PRESSURE_THRESHOLD ∧
          |c.x - pv.x| + |c.y - pv.y| < SMALL_MOVE_CUTOFF then []
      else if |c.x - pv.x| < 400 ∧ |c.y - pv.y| < 400 then
        [OutEvent.rel REL_X (moveVal (c.x - pv.x)
            (if |c.x - pv.x| + |c.y - pv.y| > 15 then ACCEL_FACTOR else 1)),
         OutEvent.rel REL_Y (moveVal (c.y - pv.y)
            (if |c.x - pv.x| + |c.y - pv.y| > 15 then ACCEL_FACTOR else 1))]
      else []) := by
  obtain ⟨hsl, hps, hcf, hsc, hgt, _, _, _, _, _, _⟩ :=
    physClickStep_preserves st (slot0Pressure st)
  have hc2 : slotGet (physClickStep st (slot0Pressure st)).1.slots 0 = some c := by
    rw [hsl, hc]
  have hp2 : slotGet (physClickStep st (slot0Pressure st)).1.prevSlots 0 = some pv := by
    rw [hps, hp]
  have hf2 : (physClickStep st (slot0Pressure st)).1.currentFingerCount = 1 := by
    rw [hcf, hf]
  have hs2 : (physClickStep st (slot0Pressure st)).1.isScrolling = false := by
    rw [hsc, hs]
  have hg2 : (physClickStep st (slot0Pressure st)).1.gestureTriggered = false := by
    rw [hgt, hg]
  have hm := frameMotion_move (physClickStep st (slot0Pressure st)).1 now c pv
    hc2 hp2 hf2 hs2 hg2
  rw [frameStep_no_palm st now hpalm, hm]
  dsimp only []
  have hpcM : (physClickStep st (slot0Pressure st)).2.filter isMotionEvent = [] :=
    physClickStep_filter_key_free st (slot0Pressure st) isMotionEvent (fun _ _ => rfl)
  have hsyn : List.filter isMotionEvent [OutEvent.syn] = [] := rfl
  simp only [List.filter_append, hpcM, hsyn, List.nil_append, List.append_nil]
  unfold moveOut
  dsimp only []
  split_ifs <;> rfl

/-- Concrete single-finger frame with dx = 500: the delta is outside the
sanity bound, so the frame emits no motion. -/
def moveWitnessState : DriverState :=
  { initState with
    currentFingerCount := 1
    slots := [(0, ⟨510, 10, 50⟩)]
    prevSlots := [(0, ⟨10, 10, 50⟩)] }

theorem single_finger_motion_gates_witness :
    (frameStep moveWitnessState 1).2.filter isMotionEvent = [] := by
  have h := single_finger_motion_gates moveWitnessState 1 ⟨510, 10, 50⟩ ⟨10, 10, 50⟩
    rfl rfl rfl rfl rfl rfl
  rw [h]
  decide

set_option maxHeartbeats 1000000 in
/-- C1: at touch-up of a session that is not palm-rejected, exactly one tap
click (down, syn, up, syn) is emitted iff: duration < TAP_TIMEOUT,
max_pressure ≤ PRESS_THRESHOLD, time since the last scroll tick
> COOLDOWN_AFTER_SCROLL, no gesture fired this session, and the squared
straight-line distance from start_coords to the last known slot-0 position
is below TAP_MOVEMENT_LIMIT squared; the button is right for a two-finger
session maximum, middle for three, otherwise right when the last position
is in the bottom-right zone, else left.  (The finger-count hypothesis is
the session invariant that the running maximum dominates the current
count, established at every touch-down.) -/
theorem tap_click_characterisation (st : DriverState) (now : ℚ) (v : Int)
    (hv : ¬(v = 1)) (hpalm : st.isPalmRejected = false)
    (hmax : st.currentFingerCount ≤ st.maxFingers) :
    (step st ⟨now, EV_KEY, BTN_TOUCH, v⟩).2 =
      if now - st.touchStartTime < TAP_TIMEOUT ∧
          st.maxPressure ≤ PRESS_THRESHOLD ∧
          now - st.lastScrollTime > COOLDOWN_AFTER_SCROLL ∧
          st.gestureTriggered = false ∧
          ((tapLastPos st).1 - st.touchStartCoords.1) ^ 2 +
              ((tapLastPos st).2 - st.touchStartCoords.2) ^ 2
            < TAP_MOVEMENT_LIMIT ^ 2 then
        tapClickSeq
          (if st.maxFingers = 2 then BTN_RIGHT
          else if st.maxFingers = 3 then BTN_MIDDLE
          else if (tapLastPos st).1 > RIGHT_CLICK_ZONE_X ∧
              (tapLastPos st).2 > BOTTOM_ZONE_Y then BTN_RIGHT
          else BTN_LEFT)
      else [] := by
  rw [step_touch, if_neg hv]
  have hmf : ¬(st.currentFingerCount > st.maxFingers) := by omega
  rw [if_neg hmf]
  have he : ({ st with maxFingers := st.maxFingers } : DriverState) = st := rfl
  rw [he]
  unfold touchEnd
  dsimp only []
  rw [if_neg (by simp [hpalm])]
  have hiff :
      (now - st.touchStartTime < TAP_TIMEOUT ∧
        st.maxPressure ≤ PRESS_THRESHOLD ∧
        now - st.lastScrollTime > COOLDOWN_AFTER_SCROLL ∧
        st.gestureTriggered = false ∧
        ((tapLastPos st).1 - st.touchStartCoords.1) ^ 2 +
            ((tapLastPos st).2 - st.touchStartCoords.2) ^ 2
          < TAP_MOVEMENT_LIMIT ^ 2) ↔
      ((now - st.touchStartTime < TAP_TIMEOUT ∧
        ¬st.maxPressure > PRESS_THRESHOLD ∧
        now - st.lastScrollTime > COOLDOWN_AFTER_SCROLL ∧
        st.gestureTriggered = false) ∧
        ((tapLastPos st).1 - st.touchStartCoords.1) ^ 2 +
            ((tapLastPos st).2 - st.touchStartCoords.2) ^ 2
          < TAP_MOVEMENT_LIMIT ^ 2) := by
    rw [not_lt]
    tauto
  rw [if_congr hiff rfl rfl]
  split_ifs <;> first | rfl | tauto

/-- Concrete tap: 0.1 s duration, max pressure 30, no recent scroll, one
finger, 7 units of travel: exactly one left-click pair is emitted. -/
def tapWitnessState : DriverState :=
  { initState with
    maxFingers := 1
    currentFingerCount := 1
    maxPressure := 30
    touchStartTime := 0
    lastScrollTime := -1
    touchStartCoords := (100, 100)
    prevSlots := [(0, ⟨103, 104, 20⟩)] }

theorem tap_click_characterisation_witness :
    (step tapWitnessState ⟨1/10, EV_KEY, BTN_TOUCH, 0⟩).2 = tapClickSeq BTN_LEFT := by
  have h := tap_click_characterisation tapWitnessState (1/10) 0 (by decide) rfl
    (by decide)
  rw [h, if_pos, if_neg, if_neg, if_neg]
  · decide
  · decide
  · decide
  · refine ⟨by norm_num [tapWitnessState, initState, TAP_TIMEOUT], by decide,
      by norm_num [tapWitnessState, initState, COOLDOWN_AFTER_SCROLL], rfl, by decide⟩

/-- C3: on a non-palm frame the physical-click machine transitions to
pressed (emitting exactly one button-down for the zone-chosen button) only
when slot-0 pressure exceeds PRESS_THRESHOLD while not pressed, transitions
to released (emitting exactly one button-up for the previously chosen
button) only when pressure drops below RELEASE_THRESHOLD while pressed, and
emits no button event and changes no click state in every other case — in
particular while the pressure lies in the hysteresis band between the two
thresholds; feeding the pressure sequence
[0, 150, 120, 90, 70, 150, 60] frame by frame from the initial state yields
exactly two down events and two up events. -/
theorem physical_click_hysteresis :
    (∀ (st : DriverState) (now : ℚ), st.isPalmRejected = false →
      st.isPhysicallyClicked = false → slot0Pressure st > PRESS_THRESHOLD →
      (frameStep st now).2.filter isButtonEvent =
        [OutEvent.key (physicalButtonChoice st) 1] ∧
      (frameStep st now).1.isPhysicallyClicked = true ∧
      (frameStep st now).1.activePhysicalButton = some (physicalButtonChoice st)) ∧
    (∀ (st : DriverState) (now : ℚ) (b : Nat), st.isPalmRejected = false →
      st.isPhysicallyClicked = true → slot0Pressure st < RELEASE_THRESHOLD →
      st.activePhysicalButton = some b → b = BTN_LEFT ∨ b = BTN_RIGHT →
      (frameStep st now).2.filter isButtonEvent = [OutEvent.key b 0] ∧
      (frameStep st now).1.isPhysicallyClicked = false ∧
      (frameStep st now).1.activePhysicalButton = none) ∧
    (∀ (st : DriverState) (now : ℚ), st.isPalmRejected = false →
      (st.isPhysicallyClicked = false ∧ slot0Pressure st ≤ PRESS_THRESHOLD) ∨
        (st.isPhysicallyClicked = true ∧ RELEASE_THRESHOLD ≤ slot0Pressure st) →
      (frameStep st now).2.filter isButtonEvent = [] ∧
      (frameStep st now).1.isPhysicallyClicked = st.isPhysicallyClicked ∧
      (frameStep st now).1.activePhysicalButton = st.activePhysicalButton) ∧
    ((run initState (pressureFrames [0, 150, 120, 90, 70, 150, 60])).2.filter
        isButtonDown).length = 2 ∧
    ((run initState (pressureFrames [0, 150, 120, 90, 70, 150, 60])).2.filter
        isButtonUp).length = 2 := by
  refine ⟨?_, ?_, ?_, by decide, by decide⟩
  · intro st now hpalm hclick hpress
    rw [frameStep_no_palm st now hpalm,
      physClickStep_press st (slot0Pressure st) hclick hpress]
    dsimp only []
    obtain ⟨hic, hab⟩ := frameMotion_click_fields
      { st with
        isPhysicallyClicked := true
        activePhysicalButton := some (physicalButtonChoice st) } now
    refine ⟨?_, by rw [hic], by rw [hab]⟩
    simp [List.filter_append, frameMotion_filter_button, isButtonEvent_choice,
      List.filter]
    rfl
  · intro st now b hpalm hclick hpress hb hbOK
    rw [frameStep_no_palm st now hpalm,
      physClickStep_release st (slot0Pressure st) b hclick hpress hb]
    dsimp only []
    obtain ⟨hic, hab⟩ := frameMotion_click_fields
      { st with
        isPhysicallyClicked := false
        activePhysicalButton := none } now
    refine ⟨?_, by rw [hic], by rw [hab]⟩
    have hbe : isButtonEvent (.key b 0) = true := by
      rcases hbOK with h | h <;> rw [h] <;> rfl
    simp [List.filter_append, frameMotion_filter_button, hbe, List.filter]
    rfl
  · intro st now hpalm h1
    rw [frameStep_no_palm st now hpalm,
      physClickStep_none st (slot0Pressure st) h1]
    dsimp only []
    obtain ⟨hic, hab⟩ := frameMotion_click_fields st now
    refine ⟨?_, by rw [hic], by rw [hab]⟩
    simp [List.filter_append, frameMotion_filter_button, List.filter]
    rfl

/-- Concrete frame instantiating the press transition: slot 0 at the
origin with pressure 150 while unpressed emits one left button-down. -/
def clickWitnessState : DriverState :=
  { initState with slots := [(0, ⟨0, 0, 150⟩)] }

theorem physical_click_hysteresis_witness :
    (frameStep clickWitnessState 0).2.filter isButtonEvent = [OutEvent.key BTN_LEFT 1] ∧
    (frameStep clickWitnessState 0).1.isPhysicallyClicked = true := by
  obtain ⟨hdown, -, -, -, -⟩ := physical_click_hysteresis
  obtain ⟨h1, h2, -⟩ := hdown clickWitnessState 0 rfl rfl (by decide)
  refine ⟨?_, h2⟩
  rw [h1]
  decide

/-- C6: a session that is palm-rejected at touch-down (slot 0 starting
with y < PALM_ZONE_TOP_Y and pressure > PALM_PRESSURE_THRESHOLD) emits
zero outbound events of any kind from the touch-down through any following
events of the session — frames, tool transitions, positional updates — up
to and including the touch-up tap check (every inbound event that is not a
new touch-down). -/
theorem palm_session_silent (st : DriverState) (now : ℚ) (s0 : Slot)
    (h0 : slotGet st.slots 0 = some s0) (hy : s0.y < PALM_ZONE_TOP_Y)
    (hp : s0.p > PALM_PRESSURE_THRESHOLD) (evs : List InEvent)
    (hns : ∀ ev ∈ evs, isTouchStart ev = false) :
    (step st ⟨now, EV_KEY, BTN_TOUCH, 1⟩).2 = [] ∧
    (run (step st ⟨now, EV_KEY, BTN_TOUCH, 1⟩).1 evs).2 = [] := by
  have hout : (step st ⟨now, EV_KEY, BTN_TOUCH, 1⟩).2 = [] := by
    rw [step_touch_start]
  have hpalm : (step st ⟨now, EV_KEY, BTN_TOUCH, 1⟩).1.isPalmRejected = true := by
    rw [step_touch_start]
    unfold touchStart
    dsimp only []
    rw [h0]
    simp [hy, hp]
  exact ⟨hout, (palm_run_silent evs _ hpalm hns).1⟩

/-- The palm session of the spec example: touch-down at y = 200 with
pressure 50, followed by finger-count changes, motion and the touch-up. -/
def palmWitnessState : DriverState :=
  { initState with slots := [(0, ⟨100, 200, 50⟩)] }

def palmWitnessEvents : List InEvent :=
  [⟨1, EV_KEY, BTN_TOOL_TRIPLETAP, 1⟩, ⟨1, EV_ABS, ABS_MT_POSITION_X, 900⟩,
   ⟨1, EV_SYN, SYN_REPORT, 0⟩, ⟨2, EV_KEY, BTN_TOUCH, 0⟩]

theorem palm_session_silent_witness :
    (step palmWitnessState ⟨0, EV_KEY, BTN_TOUCH, 1⟩).2 = [] ∧
    (run (step palmWitnessState ⟨0, EV_KEY, BTN_TOUCH, 1⟩).1 palmWitnessEvents).2 = [] :=
  palm_session_silent palmWitnessState 0 ⟨100, 200, 50⟩ rfl (by decide) (by decide)
    palmWitnessEvents (by decide)

/-- C7: within one contact session at most one three-finger gesture chord
is emitted.  Conjunct 1: a frame that emits any chord key does so only
when gesture_fired is still unset and leaves it set.  Conjunct 2: once
set, gesture_fired stays set across every event that is not a new
touch-down.  Conjunct 3: over any event sequence without a touch-down, at
most one event emits chord keys — none at all if the session has already
fired.  (buttonOK is the invariant that the physical-click button is only
ever unset, left or right.) -/
theorem gesture_fires_at_most_once :
    (∀ (st : DriverState) (now : ℚ), buttonOK st →
      (frameStep st now).2.any isChordKey = true →
      st.gestureTriggered = false ∧ (frameStep st now).1.gestureTriggered = true) ∧
    (∀ (st : DriverState) (ev : InEvent), isTouchStart ev = false →
      st.gestureTriggered = true → (step st ev).1.gestureTriggered = true) ∧
    (∀ (st : DriverState) (evs : List InEvent), buttonOK st →
      (∀ ev ∈ evs, isTouchStart ev = false) →
      chordFrameCount st evs ≤ (if st.gestureTriggered = true then 0 else 1)) := by
  refine ⟨frameStep_chord, step_trig_true, ?_⟩
  intro st evs
  induction evs generalizing st with
  | nil =>
      intro _ _
      exact Nat.zero_le _
  | cons ev rest ih =>
      intro hb hns
      by_cases ht : st.gestureTriggered = true
      · rw [if_pos ht, chordFrameCount_triggered (ev :: rest) st hb ht hns]
      · rw [if_neg ht]
        have hbound := ih (step st ev).1 (step_buttonOK st ev hb)
          (fun e he => hns e (by simp [he]))
        cases hc : (step st ev).2.any isChordKey
        · unfold chordFrameCount runOuts
          simp only [List.filter_cons, hc, Bool.false_eq_true, if_false]
          refine le_trans hbound ?_
          split_ifs <;> omega
        · obtain ⟨-, h2⟩ := step_chord st ev hb hc
          have hzero := chordFrameCount_triggered rest (step st ev).1
            (step_buttonOK st ev hb) h2 (fun e he => hns e (by simp [he]))
          unfold chordFrameCount runOuts
          unfold chordFrameCount at hzero
          simp [List.filter_cons, hc, hzero]

/-- A three-finger session whose slot-0 x moves +60 per frame: the second
frame crosses the +100 threshold and fires; later frames fire nothing. -/
def gestureWitnessState : DriverState :=
  { initState with
    currentFingerCount := 3
    slots := [(0, ⟨0, 0, 10⟩)]
    prevSlots := [(0, ⟨0, 0, 10⟩)] }

def gestureWitnessEvents : List InEvent :=
  [⟨1, EV_ABS, ABS_MT_POSITION_X, 60⟩, ⟨1, EV_SYN, SYN_REPORT, 0⟩,
   ⟨2, EV_ABS, ABS_MT_POSITION_X, 120⟩, ⟨2, EV_SYN, SYN_REPORT, 0⟩,
   ⟨3, EV_ABS, ABS_MT_POSITION_X, 180⟩, ⟨3, EV_SYN, SYN_REPORT, 0⟩]

theorem gesture_fires_at_most_once_witness :
    chordFrameCount gestureWitnessState gestureWitnessEvents ≤ 1 := by
  have h := gesture_fires_at_most_once.2.2 gestureWitnessState gestureWitnessEvents
    (Or.inl rfl) (by decide)
  simpa using h

end Touchpad
